import Mathlib

/-!
# common/luaclass.h: Lua classes, checked casts and the generated signal entry points

A shallow embedding of `src/common/luaclass.h`.

* `lua_class_t` follows `LUA_CLASS_HEADER`; a `lua_class_t *` is the index of
  the descriptor in the table of registered classes (`ClassRef`), `NULL` is
  `none`.
* The Lua stack is a list of values, slot 1 first.  The Lua C API functions the
  header calls (`lua_gettop`, `lua_isnil`, `luaL_checkstring`) follow the
  Lua 5.1 reference manual.
* A C function that may raise a Lua error returns `Except LuaError _`.
* The functions the header only declares (`luaA_checkudata`, `luaA_toudata`,
  the property lookup of `luaA_class_index`) have no body under `src/`; they
  are either parameters of the code that calls them or modelled from the
  specification, and marked so.
* The bodies generated by `LUA_CLASS_FUNCS` call signal functions whose bodies
  are absent as well; a run of an entry point is recorded as the list of these
  calls, with their arguments, and the `int` the entry point returns.
-/

namespace Awesome

/-! ## Data model -/

/-- A `lua_class_t *` that is not `NULL`: index into the table of classes. -/
abbrev ClassRef := Nat

/-- An `awesome_token_t`, the interned form of a property name. -/
abbrev awesome_token_t := Nat

/-- A `void *` result: `none` is `NULL`. -/
abbrev Ptr := Option Nat

/-- A function pointer (`lua_class_propfunc_t` and the like): `none` is `NULL`. -/
abbrev FunPtr := Option Nat

/-- Modelled from the spec: `struct lua_class_property` is only forward-declared
in the header.  A PropertyEntry is a key token with a write-on-construct
handler, a read handler and a write handler, in the argument order of
`luaA_class_add_property`. -/
structure lua_class_property_t where
  id : awesome_token_t
  new : FunPtr
  index : FunPtr
  newindex : FunPtr
  deriving DecidableEq, Repr

/-- The fields of `LUA_CLASS_HEADER`.  `signals` keeps, for each signal name,
the references of the connected functions. -/
structure lua_class_t where
  name : String
  signals : List (String × List Nat)
  parent : Option ClassRef
  object_size : Nat
  initializer : FunPtr
  collector : FunPtr
  properties : List lua_class_property_t
  index_miss_property : FunPtr
  newindex_miss_property : FunPtr
  checker : FunPtr
  deriving DecidableEq, Repr

/-- A Lua value as the header's functions observe it.  A number carries the
text `lua_tolstring` converts it to; a userdata carries its address and the
class `luaA_class_get` finds for it (`none` when it belongs to no class). -/
inductive LuaValue where
  | nil
  | boolean (b : Bool)
  | number (text : String)
  | string (s : String)
  | table (t : Nat)
  | func (f : Nat)
  | userdata (p : Nat) (cls : Option ClassRef)
  deriving DecidableEq, Repr

/-- What a C function called from Lua sees of the `lua_State`: its stack frame
(slot 1 first), the upvalues of the running C closure and the three tables
behind the pseudo-indices. -/
structure lua_State where
  stack : List LuaValue
  upvalues : List LuaValue
  registry : LuaValue
  environ : LuaValue
  globals : LuaValue
  deriving DecidableEq, Repr

/-- A Lua error raised through `lua_error`: the argument error of
`luaL_typerror` (`bad argument #narg (tname expected)`). -/
inductive LuaError where
  | TypeError (narg : Int) (tname : String)
  deriving DecidableEq, Repr

/-! ## Lua C API (Lua 5.1) -/

/-- Number of elements of the stack, which is the index of the top one. -/
def lua_gettop (L : lua_State) : Int := L.stack.length

def LUA_REGISTRYINDEX : Int := -10000
def LUA_ENVIRONINDEX : Int := -10001
def LUA_GLOBALSINDEX : Int := -10002

/-- The value an index addresses: positive indices count from slot 1, negative
ones from the top, the pseudo-indices reach the registry, the environment, the
globals and the upvalues.  `none` is the non-valid index (`LUA_TNONE`). -/
def index2adr (L : lua_State) (idx : Int) : Option LuaValue :=
  if 0 < idx then L.stack[(idx - 1).toNat]?
  else if LUA_REGISTRYINDEX < idx then
    (if idx < 0 ∧ -idx ≤ (L.stack.length : Int) then L.stack[((L.stack.length : Int) + idx).toNat]?
     else none)
  else if idx = LUA_REGISTRYINDEX then some L.registry
  else if idx = LUA_ENVIRONINDEX then some L.environ
  else if idx = LUA_GLOBALSINDEX then some L.globals
  else L.upvalues[(LUA_GLOBALSINDEX - idx - 1).toNat]?

/-- `lua_isnil(L, idx)`: the type at the index is `LUA_TNIL`; false at a
non-valid index, whose type is `LUA_TNONE`. -/
def lua_isnil (L : lua_State) (idx : Int) : Bool :=
  index2adr L idx == some LuaValue.nil

/-- `lua_tolstring` on a value: a string yields itself, a number its text, and
anything else `NULL`.  (The in-place conversion of a number to a string leaves
the stack height and all other slots as they are and is not tracked.) -/
def LuaValue.tolstring : LuaValue → Option String
  | LuaValue.string s => some s
  | LuaValue.number t => some t
  | _ => none

def lua_tolstring (L : lua_State) (idx : Int) : Option String :=
  (index2adr L idx).bind LuaValue.tolstring

/-- `luaL_checkstring(L, narg)`: the string at `narg`, or the argument error
"string expected". -/
def luaL_checkstring (L : lua_State) (narg : Int) : Except LuaError String :=
  match lua_tolstring L narg with
  | some s => Except.ok s
  | none => Except.error (LuaError.TypeError narg "string")

/-! ## `luaA_checkudataornil` (luaclass.h:104-110) -/

/-- The inline function of the header.  `luaA_checkudata` is declared in the
header and defined elsewhere: it is the parameter `checkudata`. -/
def luaA_checkudataornil (checkudata : lua_State → Int → ClassRef → Except LuaError Ptr)
    (L : lua_State) (udx : Int) (cls : ClassRef) : Except LuaError Ptr :=
  if lua_isnil L udx then Except.ok none
  else checkudata L udx cls

/-! ## `LUA_CLASS_FUNCS` (luaclass.h:112-148) -/

/-- A call made by a generated entry point to one of the signal functions,
with the arguments after `L`. -/
inductive Call where
  | luaA_object_connect_signal_from_stack (oud : Int) (name : String) (ud : Int)
  | luaA_class_connect_signal_from_stack (cls : ClassRef) (name : String) (ud : Int)
  | luaA_object_disconnect_signal_from_stack (oud : Int) (name : String) (ud : Int)
  | luaA_class_disconnect_signal_from_stack (cls : ClassRef) (name : String) (ud : Int)
  | luaA_object_emit_signal (oud : Int) (name : String) (nargs : Int)
  | luaA_class_emit_signal (cls : ClassRef) (name : String) (nargs : Int)
  deriving DecidableEq, Repr

/-- A run of an entry point: a Lua error raised by `luaL_checkstring` before
any call, or the calls made and the `int` returned once they return, which is
the number of results handed to Lua.  (What the called functions do, their
bodies being absent, is not part of a run.) -/
abbrev Run := Except LuaError (List Call × Int)

/-- Body of `luaA_##prefix##_class_connect_signal`. -/
def luaA_class_connect_signal_entry (toudata : lua_State → Int → ClassRef → Ptr)
    (lua_class : ClassRef) (L : lua_State) : Run :=
  if (toudata L 1 lua_class).isSome then do
    let name ← luaL_checkstring L 2
    pure ([Call.luaA_object_connect_signal_from_stack 1 name 3], 0)
  else do
    let name ← luaL_checkstring L 1
    pure ([Call.luaA_class_connect_signal_from_stack lua_class name 2], 0)

/-- Body of `luaA_##prefix##_class_disconnect_signal`. -/
def luaA_class_disconnect_signal_entry (toudata : lua_State → Int → ClassRef → Ptr)
    (lua_class : ClassRef) (L : lua_State) : Run :=
  if (toudata L 1 lua_class).isSome then do
    let name ← luaL_checkstring L 2
    pure ([Call.luaA_object_disconnect_signal_from_stack 1 name 3], 0)
  else do
    let name ← luaL_checkstring L 1
    pure ([Call.luaA_class_disconnect_signal_from_stack lua_class name 2], 0)

/-- Body of `luaA_##prefix##_class_emit_signal`. -/
def luaA_class_emit_signal_entry (toudata : lua_State → Int → ClassRef → Ptr)
    (lua_class : ClassRef) (L : lua_State) : Run :=
  if (toudata L 1 lua_class).isSome then do
    let name ← luaL_checkstring L 2
    pure ([Call.luaA_object_emit_signal 1 name (lua_gettop L - 1)], 0)
  else do
    let name ← luaL_checkstring L 1
    pure ([Call.luaA_class_emit_signal lua_class name (lua_gettop L - 1)], 0)

/-- The event-name slot of the generated entry points: slot 2 in the instance
form, slot 1 in the class form. -/
def name_slot (toudata : lua_State → Int → ClassRef → Ptr) (lua_class : ClassRef)
    (L : lua_State) : Int :=
  if (toudata L 1 lua_class).isSome then 2 else 1

/-! ## Observing a run -/

/-- The calls of a run; a run that raised made none. -/
def Run.calls : Run → List Call
  | Except.ok (cs, _) => cs
  | Except.error _ => []

/-- The number of results a run hands back to Lua, when it returns. -/
def Run.nresults : Run → Option Int
  | Except.ok (_, n) => some n
  | Except.error _ => none

/-- The values a C function hands to its Lua caller: the top `n` values of the
stack it leaves, `n` being the `int` it returns. -/
def lua_results (stack : List LuaValue) (n : Int) : List LuaValue :=
  stack.drop (stack.length - n.toNat)

/-- The values a run hands to its Lua caller out of the stack it leaves; `none`
when it raised. -/
def Run.yields (r : Run) (stack : List LuaValue) : Option (List LuaValue) :=
  r.nresults.map fun n => lua_results stack n

/-- Whose signals a call acts on: those of the object at a stack slot, or
those of a class. -/
inductive SignalTarget where
  | object (oud : Int)
  | ofClass (cls : ClassRef)
  deriving DecidableEq, Repr

inductive SignalOp where
  | connect
  | disconnect
  | emit
  deriving DecidableEq, Repr

def Call.op : Call → SignalOp
  | Call.luaA_object_connect_signal_from_stack _ _ _ => SignalOp.connect
  | Call.luaA_class_connect_signal_from_stack _ _ _ => SignalOp.connect
  | Call.luaA_object_disconnect_signal_from_stack _ _ _ => SignalOp.disconnect
  | Call.luaA_class_disconnect_signal_from_stack _ _ _ => SignalOp.disconnect
  | Call.luaA_object_emit_signal _ _ _ => SignalOp.emit
  | Call.luaA_class_emit_signal _ _ _ => SignalOp.emit

def Call.target : Call → SignalTarget
  | Call.luaA_object_connect_signal_from_stack oud _ _ => SignalTarget.object oud
  | Call.luaA_class_connect_signal_from_stack cls _ _ => SignalTarget.ofClass cls
  | Call.luaA_object_disconnect_signal_from_stack oud _ _ => SignalTarget.object oud
  | Call.luaA_class_disconnect_signal_from_stack cls _ _ => SignalTarget.ofClass cls
  | Call.luaA_object_emit_signal oud _ _ => SignalTarget.object oud
  | Call.luaA_class_emit_signal cls _ _ => SignalTarget.ofClass cls

def Call.name : Call → String
  | Call.luaA_object_connect_signal_from_stack _ name _ => name
  | Call.luaA_class_connect_signal_from_stack _ name _ => name
  | Call.luaA_object_disconnect_signal_from_stack _ name _ => name
  | Call.luaA_class_disconnect_signal_from_stack _ name _ => name
  | Call.luaA_object_emit_signal _ name _ => name
  | Call.luaA_class_emit_signal _ name _ => name

/-- The last argument of a call: the stack slot of the function for connect
and disconnect, the number of arguments for emit. -/
def Call.arg : Call → Int
  | Call.luaA_object_connect_signal_from_stack _ _ ud => ud
  | Call.luaA_class_connect_signal_from_stack _ _ ud => ud
  | Call.luaA_object_disconnect_signal_from_stack _ _ ud => ud
  | Call.luaA_class_disconnect_signal_from_stack _ _ ud => ud
  | Call.luaA_object_emit_signal _ _ nargs => nargs
  | Call.luaA_class_emit_signal _ _ nargs => nargs

/-- The emissions among the calls of a run. -/
def Run.emissions (r : Run) : List Call :=
  r.calls.filter fun c => c.op == SignalOp.emit

/-- What a run addresses: for each call the target, the event name and the
last argument, whatever the operation. -/
def Run.addressed (r : Run) : Except LuaError (List (SignalTarget × String × Int)) :=
  r.map fun x => x.1.map fun c => (c.target, c.name, c.arg)

/-! ## `LUA_CLASS_METHODS` (luaclass.h:150-153) -/

/-- The three functions `LUA_CLASS_FUNCS` defines. -/
inductive Trampoline where
  | connect_signal
  | disconnect_signal
  | emit_signal
  deriving DecidableEq, Repr

/-- The body of each generated function. -/
def Trampoline.body : Trampoline → (lua_State → Int → ClassRef → Ptr) → ClassRef → lua_State → Run
  | Trampoline.connect_signal => luaA_class_connect_signal_entry
  | Trampoline.disconnect_signal => luaA_class_disconnect_signal_entry
  | Trampoline.emit_signal => luaA_class_emit_signal_entry

/-- The functions `LUA_CLASS_FUNCS(prefix, lua_class)` defines, each under the
identifier the token pasting `luaA_##prefix##_class_...` builds. -/
def LUA_CLASS_FUNCS (pfx : String) : List (String × Trampoline) :=
  [ ("luaA_" ++ pfx ++ "_class_connect_signal", Trampoline.connect_signal),
    ("luaA_" ++ pfx ++ "_class_disconnect_signal", Trampoline.disconnect_signal),
    ("luaA_" ++ pfx ++ "_class_emit_signal", Trampoline.emit_signal) ]

/-- The `luaL_reg` entries `LUA_CLASS_METHODS(class)` expands to: the method
name and the identifier of the C function. -/
def LUA_CLASS_METHODS (cls : String) : List (String × String) :=
  [ ("connect_signal", "luaA_" ++ cls ++ "_class_connect_signal"),
    ("disconnect_signal", "luaA_" ++ cls ++ "_class_disconnect_signal"),
    ("emit_signal", "luaA_" ++ cls ++ "_class_emit_signal") ]

/-- The method table after the C identifiers are resolved among the functions
`LUA_CLASS_FUNCS` defined under the same prefix; `none` is an identifier that
names none of them. -/
def class_methods_resolved (cls : String) : List (String × Option Trampoline) :=
  (LUA_CLASS_METHODS cls).map fun e => (e.1, List.lookup e.2 (LUA_CLASS_FUNCS cls))

/-! ## Class hierarchy -/

/-- The `parent` field of the class a pointer refers to; `none` is `NULL`. -/
def lua_class_parent (classes : List lua_class_t) (c : ClassRef) : Option ClassRef :=
  (classes[c]?).bind fun d => d.parent

/-- One parent link. -/
def IsParent (classes : List lua_class_t) (c p : ClassRef) : Prop :=
  lua_class_parent classes c = some p

/-- The class `e` is `d` or is reached from `d` by following parent links. -/
def Inherits (classes : List lua_class_t) (d e : ClassRef) : Prop :=
  Relation.ReflTransGen (IsParent classes) d e

/-- Modelled from the spec: registration (`luaA_class_setup`) has no body under
`src/`.  "Parent links form a forest with no cycles (enforced by construction
order: a class may only declare a parent already registered)": every parent
was registered before its child. -/
def parents_registered (classes : List lua_class_t) : Bool :=
  (List.range classes.length).all fun i =>
    match lua_class_parent classes i with
    | none => true
    | some p => decide (p < i)

/-- The walk `for(; c; c = c->parent)` from a class to its root, as the list
of the classes visited, at most `fuel` of them. -/
def class_chain (classes : List lua_class_t) : Nat → Option ClassRef → List ClassRef
  | 0, _ => []
  | _ + 1, none => []
  | fuel + 1, some c => c :: class_chain classes fuel (lua_class_parent classes c)

/-- The ancestor chain of a class, itself first. -/
def lua_class_ancestors (classes : List lua_class_t) (c : ClassRef) : List ClassRef :=
  class_chain classes (classes.length + 1) (some c)

/-! ## Checked cast (declared at luaclass.h:101-102) -/

/-- Modelled from the spec: the test of `checked_cast` (§4.3), "the value's
concrete class equals `expected_class` or one of its ancestors equals
`expected_class`", walking at most `fuel` classes. -/
def class_is_a (classes : List lua_class_t) : Nat → Option ClassRef → ClassRef → Bool
  | 0, _, _ => false
  | _ + 1, none, _ => false
  | fuel + 1, some d, e => d == e || class_is_a classes fuel (lua_class_parent classes d) e

/-- Modelled from the spec: `luaA_toudata` is declared in the header and has no
body under `src/`.  It is the test of `checked_cast` (§4.3) answering `NULL`
where `luaA_checkudata` raises: the address of the userdata at `ud` when its
concrete class is `cls` or has `cls` among its ancestors. -/
def luaA_toudata (classes : List lua_class_t) (L : lua_State) (ud : Int) (cls : ClassRef) : Ptr :=
  match index2adr L ud with
  | some (LuaValue.userdata p concrete) =>
    if class_is_a classes (classes.length + 1) concrete cls then some p else none
  | _ => none

/-- The name `luaL_typerror` reports for a class. -/
def lua_class_name (classes : List lua_class_t) (cls : ClassRef) : String :=
  match classes[cls]? with
  | some d => d.name
  | none => ""

/-- Modelled from the spec: `luaA_checkudata` is declared in the header and has
no body under `src/`.  `checked_cast(scripting_value, expected_class)` (§4.3)
"succeeds only if the value's concrete class equals `expected_class` or one of
its ancestors equals `expected_class`; fails with `TypeError` otherwise". -/
def luaA_checkudata (classes : List lua_class_t) (L : lua_State) (ud : Int) (cls : ClassRef) :
    Except LuaError Ptr :=
  match luaA_toudata classes L ud cls with
  | some p => Except.ok (some p)
  | none => Except.error (LuaError.TypeError ud (lua_class_name classes cls))

/-! ## Property lookup (used by `luaA_class_index` / `luaA_class_newindex`) -/

/-- Keyed lookup in one class's property table. -/
def lua_class_property_array_getbyid (props : List lua_class_property_t)
    (id : awesome_token_t) : Option lua_class_property_t :=
  props.find? fun p => p.id == id

/-- The entry a class itself defines for a key. -/
def lua_class_own_property (classes : List lua_class_t) (c : ClassRef)
    (key : awesome_token_t) : Option lua_class_property_t :=
  (classes[c]?).bind fun d => lua_class_property_array_getbyid d.properties key

/-- Modelled from the spec: the bodies of `luaA_class_index` and
`luaA_class_newindex` are not under `src/`.  Their lookup (§4.2): "walk from
concrete class to root through parent links, at each level check the Property
Table for `key`; on first match" stop.  The result is the entry with the class
that owns it; at most `fuel` classes are visited. -/
def luaA_class_property_walk (classes : List lua_class_t) :
    Nat → Option ClassRef → awesome_token_t → Option (ClassRef × lua_class_property_t)
  | 0, _, _ => none
  | _ + 1, none, _ => none
  | fuel + 1, some c, key =>
    match lua_class_own_property classes c key with
    | some e => some (c, e)
    | none => luaA_class_property_walk classes fuel (lua_class_parent classes c) key

/-- The property lookup from a concrete class. -/
def luaA_class_property_get (classes : List lua_class_t) (c : ClassRef)
    (key : awesome_token_t) : Option (ClassRef × lua_class_property_t) :=
  luaA_class_property_walk classes (classes.length + 1) (some c) key

/-! ## Signal registry -/

/-- Modelled from the spec: the signal registry (`common/signal.h`) is not under
`src/`.  `disconnect(registry, event_name, callback) -> bool` (§4.4) "removes
the first structurally-equal match; returns whether one was found". -/
def signal_disconnect : List (String × List Nat) → String → Nat → List (String × List Nat) × Bool
  | [], _, _ => ([], false)
  | (n, fs) :: rest, name, cb =>
    if n == name then
      (if cb ∈ fs then ((n, fs.erase cb) :: rest, true) else ((n, fs) :: rest, false))
    else ((n, fs) :: (signal_disconnect rest name cb).1, (signal_disconnect rest name cb).2)

/-! ## Sample data -/

def class_object : lua_class_t :=
  { name := "object", signals := [], parent := none, object_size := 8, initializer := none,
    collector := none, properties := [⟨1, none, some 10, some 11⟩, ⟨2, none, some 12, none⟩],
    index_miss_property := none, newindex_miss_property := none, checker := none }

def class_window : lua_class_t :=
  { name := "window", signals := [], parent := some 0, object_size := 16, initializer := none,
    collector := none, properties := [⟨3, none, some 20, some 21⟩],
    index_miss_property := none, newindex_miss_property := none, checker := none }

def class_client : lua_class_t :=
  { name := "client", signals := [], parent := some 1, object_size := 32, initializer := none,
    collector := none, properties := [⟨1, none, some 30, some 31⟩],
    index_miss_property := none, newindex_miss_property := none, checker := none }

def class_tag : lua_class_t :=
  { name := "tag", signals := [("sig", [7])], parent := some 0, object_size := 16, initializer := none,
    collector := none, properties := [],
    index_miss_property := none, newindex_miss_property := none, checker := none }

/-- Four registered classes: object (0), window (1, parent object),
client (2, parent window), tag (3, parent object). -/
def sample_classes : List lua_class_t := [class_object, class_window, class_client, class_tag]

/-- A state whose stack is `stack`, with no upvalues. -/
def state_of (stack : List LuaValue) : lua_State :=
  { stack := stack, upvalues := [], registry := LuaValue.table 0,
    environ := LuaValue.table 1, globals := LuaValue.table 2 }

/-! ## Basic facts about the Lua API model -/

theorem index2adr_one (L : lua_State) : index2adr L 1 = L.stack[0]? := by
  simp [index2adr]

theorem index2adr_two (L : lua_State) : index2adr L 2 = L.stack[1]? := by
  simp [index2adr]

theorem luaL_checkstring_of_some {L : lua_State} {narg : Int} {s : String}
    (h : lua_tolstring L narg = some s) : luaL_checkstring L narg = Except.ok s := by
  simp [luaL_checkstring, h]

theorem luaL_checkstring_of_none {L : lua_State} {narg : Int}
    (h : lua_tolstring L narg = none) :
    luaL_checkstring L narg = Except.error (LuaError.TypeError narg "string") := by
  simp [luaL_checkstring, h]

/-! ## `luaA_checkudataornil` -/

/-- C1: when the value at `udx` is nil, `luaA_checkudataornil` returns `NULL`
whatever the class is, and `luaA_checkudata` is not called: the result is the
same for every implementation of it, also one that would raise. -/
theorem luaA_checkudataornil_nil (checkudata : lua_State → Int → ClassRef → Except LuaError Ptr)
    (L : lua_State) (udx : Int) (cls : ClassRef) (h : index2adr L udx = some LuaValue.nil) :
    luaA_checkudataornil checkudata L udx cls = Except.ok none ∧
    ∀ other : lua_State → Int → ClassRef → Except LuaError Ptr,
      luaA_checkudataornil other L udx cls = Except.ok none := by
  have hn : lua_isnil L udx = true := by simp [lua_isnil, h]
  constructor
  · simp [luaA_checkudataornil, hn]
  · intro other
    simp [luaA_checkudataornil, hn]

/-- A nil argument checked against the class client: no object, although the
checked cast alone raises a type error there. -/
theorem luaA_checkudataornil_nil_witness :
    index2adr (state_of [LuaValue.nil]) 1 = some LuaValue.nil ∧
    luaA_checkudata sample_classes (state_of [LuaValue.nil]) 1 2 =
      Except.error (LuaError.TypeError 1 "client") ∧
    luaA_checkudataornil (luaA_checkudata sample_classes) (state_of [LuaValue.nil]) 1 2 =
      Except.ok none :=
  ⟨rfl, rfl,
    (luaA_checkudataornil_nil (luaA_checkudata sample_classes) (state_of [LuaValue.nil]) 1 2 rfl).1⟩

/-- C10: when the value at `udx` is not nil, `luaA_checkudataornil` is
`luaA_checkudata`: the same pointer or the same error; the two can differ at a
nil value only. -/
theorem luaA_checkudataornil_not_nil
    (checkudata : lua_State → Int → ClassRef → Except LuaError Ptr)
    (L : lua_State) (udx : Int) (cls : ClassRef) :
    (index2adr L udx ≠ some LuaValue.nil →
      luaA_checkudataornil checkudata L udx cls = checkudata L udx cls) ∧
    (luaA_checkudataornil checkudata L udx cls ≠ checkudata L udx cls →
      index2adr L udx = some LuaValue.nil) := by
  have key : index2adr L udx ≠ some LuaValue.nil →
      luaA_checkudataornil checkudata L udx cls = checkudata L udx cls := by
    intro h
    have hn : lua_isnil L udx = false := by simp [lua_isnil, h]
    simp [luaA_checkudataornil, hn]
  refine ⟨key, fun hne => ?_⟩
  by_contra h
  exact hne (key h)

/-- A client checked against window gives its address both ways, a string gives
the same type error both ways, an absent argument is not nil and gives the
same type error both ways. -/
theorem luaA_checkudataornil_not_nil_witness :
    luaA_checkudataornil (luaA_checkudata sample_classes)
        (state_of [LuaValue.userdata 100 (some 2)]) 1 1 = Except.ok (some 100) ∧
    luaA_checkudataornil (luaA_checkudata sample_classes)
        (state_of [LuaValue.string "x"]) 1 1 = Except.error (LuaError.TypeError 1 "window") ∧
    luaA_checkudataornil (luaA_checkudata sample_classes)
        (state_of []) 1 1 = Except.error (LuaError.TypeError 1 "window") :=
  ⟨((luaA_checkudataornil_not_nil (luaA_checkudata sample_classes)
        (state_of [LuaValue.userdata 100 (some 2)]) 1 1).1 (by decide)).trans rfl,
   ((luaA_checkudataornil_not_nil (luaA_checkudata sample_classes)
        (state_of [LuaValue.string "x"]) 1 1).1 (by decide)).trans rfl,
   ((luaA_checkudataornil_not_nil (luaA_checkudata sample_classes)
        (state_of []) 1 1).1 (by decide)).trans rfl⟩

/-! ## The generated entry points -/

theorem emit_entry_instance (toudata : lua_State → Int → ClassRef → Ptr) (lua_class : ClassRef)
    (L : lua_State) (h : toudata L 1 lua_class ≠ none) :
    luaA_class_emit_signal_entry toudata lua_class L =
      (luaL_checkstring L 2).map fun name =>
        ([Call.luaA_object_emit_signal 1 name (lua_gettop L - 1)], 0) := by
  have hs : (toudata L 1 lua_class).isSome = true := Option.isSome_iff_ne_none.mpr h
  simp only [luaA_class_emit_signal_entry, hs, if_true]
  cases luaL_checkstring L 2 <;> rfl

theorem emit_entry_class (toudata : lua_State → Int → ClassRef → Ptr) (lua_class : ClassRef)
    (L : lua_State) (h : toudata L 1 lua_class = none) :
    luaA_class_emit_signal_entry toudata lua_class L =
      (luaL_checkstring L 1).map fun name =>
        ([Call.luaA_class_emit_signal lua_class name (lua_gettop L - 1)], 0) := by
  simp only [luaA_class_emit_signal_entry, h, Option.isSome_none, Bool.false_eq_true, if_false]
  cases luaL_checkstring L 1 <;> rfl

theorem connect_entry_instance (toudata : lua_State → Int → ClassRef → Ptr)
    (lua_class : ClassRef) (L : lua_State) (h : toudata L 1 lua_class ≠ none) :
    luaA_class_connect_signal_entry toudata lua_class L =
      (luaL_checkstring L 2).map fun name =>
        ([Call.luaA_object_connect_signal_from_stack 1 name 3], 0) := by
  have hs : (toudata L 1 lua_class).isSome = true := Option.isSome_iff_ne_none.mpr h
  simp only [luaA_class_connect_signal_entry, hs, if_true]
  cases luaL_checkstring L 2 <;> rfl

theorem connect_entry_class (toudata : lua_State → Int → ClassRef → Ptr)
    (lua_class : ClassRef) (L : lua_State) (h : toudata L 1 lua_class = none) :
    luaA_class_connect_signal_entry toudata lua_class L =
      (luaL_checkstring L 1).map fun name =>
        ([Call.luaA_class_connect_signal_from_stack lua_class name 2], 0) := by
  simp only [luaA_class_connect_signal_entry, h, Option.isSome_none, Bool.false_eq_true,
    if_false]
  cases luaL_checkstring L 1 <;> rfl

theorem disconnect_entry_instance (toudata : lua_State → Int → ClassRef → Ptr)
    (lua_class : ClassRef) (L : lua_State) (h : toudata L 1 lua_class ≠ none) :
    luaA_class_disconnect_signal_entry toudata lua_class L =
      (luaL_checkstring L 2).map fun name =>
        ([Call.luaA_object_disconnect_signal_from_stack 1 name 3], 0) := by
  have hs : (toudata L 1 lua_class).isSome = true := Option.isSome_iff_ne_none.mpr h
  simp only [luaA_class_disconnect_signal_entry, hs, if_true]
  cases luaL_checkstring L 2 <;> rfl

theorem disconnect_entry_class (toudata : lua_State → Int → ClassRef → Ptr)
    (lua_class : ClassRef) (L : lua_State) (h : toudata L 1 lua_class = none) :
    luaA_class_disconnect_signal_entry toudata lua_class L =
      (luaL_checkstring L 1).map fun name =>
        ([Call.luaA_class_disconnect_signal_from_stack lua_class name 2], 0) := by
  simp only [luaA_class_disconnect_signal_entry, h, Option.isSome_none, Bool.false_eq_true,
    if_false]
  cases luaL_checkstring L 1 <;> rfl

theorem name_slot_instance {toudata : lua_State → Int → ClassRef → Ptr} {lua_class : ClassRef}
    {L : lua_State} (h : toudata L 1 lua_class ≠ none) : name_slot toudata lua_class L = 2 := by
  simp [name_slot, Option.isSome_iff_ne_none.mpr h]

theorem name_slot_class {toudata : lua_State → Int → ClassRef → Ptr} {lua_class : ClassRef}
    {L : lua_State} (h : toudata L 1 lua_class = none) : name_slot toudata lua_class L = 1 := by
  simp [name_slot, h]

/-- C2, as amended: the generated emit_signal entry point makes at most one
call, an emission, never two: exactly one when the event-name slot (slot 2 in
the instance form, slot 1 in the class form) holds a string or a number, none
otherwise, `luaL_checkstring` raising first.  In the instance form the emission
is on the object at slot 1 and no class is passed to it; in the class form it is
on the class. -/
theorem emit_signal_at_most_one_emission (toudata : lua_State → Int → ClassRef → Ptr)
    (lua_class : ClassRef) (L : lua_State) :
    (luaA_class_emit_signal_entry toudata lua_class L).calls.length ≤ 1 ∧
    (luaA_class_emit_signal_entry toudata lua_class L).emissions =
      (luaA_class_emit_signal_entry toudata lua_class L).calls ∧
    ((luaA_class_emit_signal_entry toudata lua_class L).emissions.length = 1 ↔
      lua_tolstring L (name_slot toudata lua_class L) ≠ none) ∧
    (lua_tolstring L (name_slot toudata lua_class L) = none →
      luaA_class_emit_signal_entry toudata lua_class L =
        Except.error (LuaError.TypeError (name_slot toudata lua_class L) "string")) ∧
    (toudata L 1 lua_class ≠ none →
      ∀ c ∈ (luaA_class_emit_signal_entry toudata lua_class L).calls,
        c.target = SignalTarget.object 1 ∧ ∀ k, c.target ≠ SignalTarget.ofClass k) ∧
    (toudata L 1 lua_class = none →
      ∀ c ∈ (luaA_class_emit_signal_entry toudata lua_class L).calls,
        c.target = SignalTarget.ofClass lua_class) := by
  by_cases h : toudata L 1 lua_class = none
  · rw [emit_entry_class toudata lua_class L h, name_slot_class h]
    cases hs : lua_tolstring L 1 with
    | none => simp [luaL_checkstring, hs, Except.map, Run.calls, Run.emissions, h]
    | some s =>
      simp [luaL_checkstring, hs, Except.map, Run.calls, Run.emissions, h, Call.op, Call.target]
  · rw [emit_entry_instance toudata lua_class L h, name_slot_instance h]
    cases hs : lua_tolstring L 2 with
    | none => simp [luaL_checkstring, hs, Except.map, Run.calls, Run.emissions, h]
    | some s =>
      simp [luaL_checkstring, hs, Except.map, Run.calls, Run.emissions, h, Call.op, Call.target]

/-- A client passed to the entry point of its ancestor class window, with the
event name "sig" and one argument: one emission, on the object at slot 1. -/
theorem emit_signal_at_most_one_emission_witness :
    (luaA_class_emit_signal_entry (luaA_toudata sample_classes) 1
      (state_of [LuaValue.userdata 100 (some 2), LuaValue.string "sig",
        LuaValue.number "5"])).emissions.length = 1 ∧
    ∀ c ∈ (luaA_class_emit_signal_entry (luaA_toudata sample_classes) 1
      (state_of [LuaValue.userdata 100 (some 2), LuaValue.string "sig",
        LuaValue.number "5"])).calls,
      c.target = SignalTarget.object 1 ∧ ∀ k, c.target ≠ SignalTarget.ofClass k :=
  have h := emit_signal_at_most_one_emission (luaA_toudata sample_classes) 1
    (state_of [LuaValue.userdata 100 (some 2), LuaValue.string "sig", LuaValue.number "5"])
  ⟨h.2.2.1.mpr (by decide), h.2.2.2.2.1 (by decide)⟩

/-- C2 as stated fails: called with no argument, or on a client with no event
name, the entry point raises the argument error of `luaL_checkstring` and
performs no emission at all. -/
theorem emit_signal_exactly_one_counterexample :
    (luaA_class_emit_signal_entry (luaA_toudata sample_classes) 2 (state_of [])).emissions = [] ∧
    luaA_class_emit_signal_entry (luaA_toudata sample_classes) 2 (state_of []) =
      Except.error (LuaError.TypeError 1 "string") ∧
    luaA_toudata sample_classes (state_of [LuaValue.userdata 100 (some 2)]) 1 2 = some 100 ∧
    (luaA_class_emit_signal_entry (luaA_toudata sample_classes) 2
      (state_of [LuaValue.userdata 100 (some 2)])).emissions = [] := by
  refine ⟨rfl, rfl, rfl, rfl⟩

/-- The instance form hands `luaA_object_emit_signal` one more than the number
of values that follow the event name. -/
theorem emit_entry_instance_nargs (toudata : lua_State → Int → ClassRef → Ptr)
    (lua_class : ClassRef) (L : lua_State) (obj : LuaValue) (name : String)
    (args : List LuaValue) (hs : L.stack = obj :: LuaValue.string name :: args)
    (h : toudata L 1 lua_class ≠ none) :
    luaA_class_emit_signal_entry toudata lua_class L =
      Except.ok ([Call.luaA_object_emit_signal 1 name ((args.length : Int) + 1)], 0) := by
  rw [emit_entry_instance toudata lua_class L h]
  have h2 : lua_tolstring L 2 = some name := by
    simp [lua_tolstring, index2adr_two, hs, LuaValue.tolstring]
  have ht : lua_gettop L - 1 = (args.length : Int) + 1 := by
    simp [lua_gettop, hs]
  simp [luaL_checkstring_of_some h2, Except.map, ht]

/-- C3: the code at the failing input.  On the stack (client, "sig"), with no
argument after the event name, the instance form hands
`luaA_object_emit_signal` the count 1, not 0. -/
theorem emit_signal_instance_form_count :
    luaA_toudata sample_classes
      (state_of [LuaValue.userdata 100 (some 2), LuaValue.string "sig"]) 1 2 = some 100 ∧
    luaA_class_emit_signal_entry (luaA_toudata sample_classes) 2
      (state_of [LuaValue.userdata 100 (some 2), LuaValue.string "sig"]) =
      Except.ok ([Call.luaA_object_emit_signal 1 "sig" 1], 0) := by
  exact ⟨rfl, rfl⟩

/-- C4: called with the stack (event_name, a1, ..., an) whose first value is
not an instance of the class, the entry point emits on the class, with the
event name of slot 1 and the argument count n, which is `lua_gettop(L) - 1`;
it makes no other call and returns 0. -/
theorem emit_signal_class_form (toudata : lua_State → Int → ClassRef → Ptr)
    (lua_class : ClassRef) (L : lua_State) (name : String) (args : List LuaValue)
    (hs : L.stack = LuaValue.string name :: args) (h : toudata L 1 lua_class = none) :
    luaA_class_emit_signal_entry toudata lua_class L =
      Except.ok ([Call.luaA_class_emit_signal lua_class name (args.length : Int)], 0) ∧
    (args.length : Int) = lua_gettop L - 1 := by
  have h1 : lua_tolstring L 1 = some name := by
    simp [lua_tolstring, index2adr_one, hs, LuaValue.tolstring]
  have ht : lua_gettop L - 1 = (args.length : Int) := by
    simp [lua_gettop, hs]
  rw [emit_entry_class toudata lua_class L h]
  simp [luaL_checkstring_of_some h1, Except.map, ht]

/-- The call `tag.emit_signal("sig", 5, true)`: two arguments after the name. -/
theorem emit_signal_class_form_witness :
    luaA_class_emit_signal_entry (luaA_toudata sample_classes) 3
      (state_of [LuaValue.string "sig", LuaValue.number "5", LuaValue.boolean true]) =
      Except.ok ([Call.luaA_class_emit_signal 3 "sig" 2], 0) :=
  (emit_signal_class_form (luaA_toudata sample_classes) 3
    (state_of [LuaValue.string "sig", LuaValue.number "5", LuaValue.boolean true]) "sig"
    [LuaValue.number "5", LuaValue.boolean true] rfl rfl).1

/-- C9, as amended: for every stack the generated connect_signal and
disconnect_signal entry points address the same target, and return alike.
When the event-name slot holds a string or a number, both make one call with
that name and return 0: on the object at slot 1 with the name of slot 2 and the
function at slot 3 in the instance form, on the class with the name of slot 1
and the function at slot 2 otherwise.  When it does not, both raise the same
argument error, address nothing and return nothing. -/
theorem connect_disconnect_same_target (toudata : lua_State → Int → ClassRef → Ptr)
    (lua_class : ClassRef) (L : lua_State) :
    (luaA_class_connect_signal_entry toudata lua_class L).addressed =
      (luaA_class_disconnect_signal_entry toudata lua_class L).addressed ∧
    (luaA_class_connect_signal_entry toudata lua_class L).nresults =
      (luaA_class_disconnect_signal_entry toudata lua_class L).nresults ∧
    (toudata L 1 lua_class ≠ none → ∀ name, lua_tolstring L 2 = some name →
      luaA_class_connect_signal_entry toudata lua_class L =
        Except.ok ([Call.luaA_object_connect_signal_from_stack 1 name 3], 0) ∧
      luaA_class_disconnect_signal_entry toudata lua_class L =
        Except.ok ([Call.luaA_object_disconnect_signal_from_stack 1 name 3], 0)) ∧
    (toudata L 1 lua_class = none → ∀ name, lua_tolstring L 1 = some name →
      luaA_class_connect_signal_entry toudata lua_class L =
        Except.ok ([Call.luaA_class_connect_signal_from_stack lua_class name 2], 0) ∧
      luaA_class_disconnect_signal_entry toudata lua_class L =
        Except.ok ([Call.luaA_class_disconnect_signal_from_stack lua_class name 2], 0)) ∧
    (lua_tolstring L (name_slot toudata lua_class L) = none →
      luaA_class_connect_signal_entry toudata lua_class L =
        Except.error (LuaError.TypeError (name_slot toudata lua_class L) "string") ∧
      luaA_class_disconnect_signal_entry toudata lua_class L =
        Except.error (LuaError.TypeError (name_slot toudata lua_class L) "string")) := by
  by_cases h : toudata L 1 lua_class = none
  · rw [connect_entry_class toudata lua_class L h, disconnect_entry_class toudata lua_class L h,
      name_slot_class h]
    cases hs : lua_tolstring L 1 with
    | none => simp [luaL_checkstring, hs, Except.map, Run.addressed, Run.nresults, h]
    | some s =>
      simp [luaL_checkstring, hs, Except.map, Run.addressed, Run.nresults, h, Call.target,
        Call.name, Call.arg]
  · rw [connect_entry_instance toudata lua_class L h,
      disconnect_entry_instance toudata lua_class L h, name_slot_instance h]
    cases hs : lua_tolstring L 2 with
    | none => simp [luaL_checkstring, hs, Except.map, Run.addressed, Run.nresults, h]
    | some s =>
      simp [luaL_checkstring, hs, Except.map, Run.addressed, Run.nresults, h, Call.target,
        Call.name, Call.arg]

/-- The calls `tag.connect_signal("sig", f)` and `tag.disconnect_signal("sig", f)`:
both act on the class tag, with the name "sig" and the function at slot 2, and
return 0. -/
theorem connect_disconnect_same_target_witness :
    luaA_class_connect_signal_entry (luaA_toudata sample_classes) 3
        (state_of [LuaValue.string "sig", LuaValue.func 7]) =
      Except.ok ([Call.luaA_class_connect_signal_from_stack 3 "sig" 2], 0) ∧
    luaA_class_disconnect_signal_entry (luaA_toudata sample_classes) 3
        (state_of [LuaValue.string "sig", LuaValue.func 7]) =
      Except.ok ([Call.luaA_class_disconnect_signal_from_stack 3 "sig" 2], 0) :=
  (connect_disconnect_same_target (luaA_toudata sample_classes) 3
    (state_of [LuaValue.string "sig", LuaValue.func 7])).2.2.2.1 (by decide) "sig" (by decide)

/-- C9 as stated fails: with a function alone on the stack, the class form has
no event name in slot 1; connect_signal and disconnect_signal both raise, act on
no registry and return no result count. -/
theorem connect_disconnect_return_counterexample :
    luaA_class_connect_signal_entry (luaA_toudata sample_classes) 2
      (state_of [LuaValue.func 7]) = Except.error (LuaError.TypeError 1 "string") ∧
    luaA_class_disconnect_signal_entry (luaA_toudata sample_classes) 2
      (state_of [LuaValue.func 7]) = Except.error (LuaError.TypeError 1 "string") ∧
    (luaA_class_connect_signal_entry (luaA_toudata sample_classes) 2
      (state_of [LuaValue.func 7])).nresults ≠ some 0 ∧
    (luaA_class_connect_signal_entry (luaA_toudata sample_classes) 2
      (state_of [LuaValue.func 7])).calls = [] := by
  refine ⟨rfl, rfl, ?_, rfl⟩
  simp [luaA_class_connect_signal_entry, luaA_toudata, index2adr, state_of, luaL_checkstring,
    lua_tolstring, LuaValue.tolstring, Run.nresults, bind, Except.bind]

/-- C5, as amended: the generated disconnect_signal entry point reports nothing
to its caller.  It returns exactly when the event-name slot holds a string or a
number, and then returns 0 results after its one call, which is to a `void`
function: whatever the stack it leaves, the Lua caller receives no value,
neither true nor false. -/
theorem disconnect_signal_returns_nothing (toudata : lua_State → Int → ClassRef → Ptr)
    (lua_class : ClassRef) (L : lua_State) :
    ((luaA_class_disconnect_signal_entry toudata lua_class L).nresults = some 0 ↔
      lua_tolstring L (name_slot toudata lua_class L) ≠ none) ∧
    ((luaA_class_disconnect_signal_entry toudata lua_class L).nresults = none ↔
      lua_tolstring L (name_slot toudata lua_class L) = none) ∧
    (∀ stack vs, (luaA_class_disconnect_signal_entry toudata lua_class L).yields stack = some vs →
      vs = []) ∧
    (∀ stack b, (luaA_class_disconnect_signal_entry toudata lua_class L).yields stack ≠
      some [LuaValue.boolean b]) := by
  have hdrop : ∀ stack : List LuaValue, lua_results stack 0 = [] := by
    intro stack
    simp [lua_results]
  by_cases h : toudata L 1 lua_class = none
  · rw [disconnect_entry_class toudata lua_class L h, name_slot_class h]
    cases hs : lua_tolstring L 1 with
    | none => simp [luaL_checkstring, hs, Except.map, Run.nresults, Run.yields]
    | some s => simp [luaL_checkstring, hs, Except.map, Run.nresults, Run.yields, hdrop]
  · rw [disconnect_entry_instance toudata lua_class L h, name_slot_instance h]
    cases hs : lua_tolstring L 2 with
    | none => simp [luaL_checkstring, hs, Except.map, Run.nresults, Run.yields]
    | some s => simp [luaL_checkstring, hs, Except.map, Run.nresults, Run.yields, hdrop]

/-- C5 as stated fails: `tag.disconnect_signal("sig", f)`, with `f` connected
to "sig" on the class tag so that the disconnect of the spec finds a match,
makes its one call and returns 0 results; the values handed to the Lua caller
are none at all, not `true` and not `false`. -/
theorem disconnect_signal_bool_counterexample :
    signal_disconnect class_tag.signals "sig" 7 = ([("sig", [])], true) ∧
    luaA_class_disconnect_signal_entry (luaA_toudata sample_classes) 3
      (state_of [LuaValue.string "sig", LuaValue.func 7]) =
      Except.ok ([Call.luaA_class_disconnect_signal_from_stack 3 "sig" 2], 0) ∧
    (luaA_class_disconnect_signal_entry (luaA_toudata sample_classes) 3
      (state_of [LuaValue.string "sig", LuaValue.func 7])).yields
        [LuaValue.string "sig", LuaValue.func 7] = some [] ∧
    (luaA_class_disconnect_signal_entry (luaA_toudata sample_classes) 3
      (state_of [LuaValue.string "sig", LuaValue.func 7])).yields
        [LuaValue.string "sig", LuaValue.func 7] ≠ some [LuaValue.boolean true] ∧
    (luaA_class_disconnect_signal_entry (luaA_toudata sample_classes) 3
      (state_of [LuaValue.string "sig", LuaValue.func 7])).yields
        [LuaValue.string "sig", LuaValue.func 7] ≠ some [LuaValue.boolean false] := by
  have hrun : luaA_class_disconnect_signal_entry (luaA_toudata sample_classes) 3
      (state_of [LuaValue.string "sig", LuaValue.func 7]) =
      Except.ok ([Call.luaA_class_disconnect_signal_from_stack 3 "sig" 2], 0) := rfl
  refine ⟨by decide, hrun, ?_, ?_, ?_⟩ <;> rw [hrun] <;>
    simp [Run.yields, Run.nresults, lua_results]

/-! ## `LUA_CLASS_METHODS` -/

/-- Two identifiers pasted around the same class name are equal only when
their endings are. -/
theorem pasted_identifier_inj (c a b : String) (h : "luaA_" ++ c ++ a = "luaA_" ++ c ++ b) :
    a = b := by
  have h1 := congrArg String.data h
  simp only [String.data_append, List.append_cancel_left_eq] at h1
  exact String.ext h1

theorem pasted_identifier_beq_false (c a b : String) (h : a ≠ b) :
    ("luaA_" ++ c ++ a == "luaA_" ++ c ++ b) = false := by
  rw [beq_eq_false_iff_ne]
  intro heq
  exact h (pasted_identifier_inj c a b heq)

/-- C6: for every class name `c`, `LUA_CLASS_METHODS(c)` is exactly three
entries, "connect_signal", "disconnect_signal", "emit_signal" in this order,
bound to `luaA_c_class_connect_signal`, `luaA_c_class_disconnect_signal` and
`luaA_c_class_emit_signal`; each identifier names the function of the same
operation among those `LUA_CLASS_FUNCS(c, ...)` defines, with that operation's
body, and none names another operation's. -/
theorem LUA_CLASS_METHODS_bindings (c : String) :
    (LUA_CLASS_METHODS c).length = 3 ∧
    (LUA_CLASS_METHODS c).map Prod.fst = ["connect_signal", "disconnect_signal", "emit_signal"] ∧
    (LUA_CLASS_METHODS c).map Prod.snd =
      ["luaA_" ++ c ++ "_class_connect_signal", "luaA_" ++ c ++ "_class_disconnect_signal",
       "luaA_" ++ c ++ "_class_emit_signal"] ∧
    class_methods_resolved c =
      [("connect_signal", some Trampoline.connect_signal),
       ("disconnect_signal", some Trampoline.disconnect_signal),
       ("emit_signal", some Trampoline.emit_signal)] ∧
    (class_methods_resolved c).map (fun e => (e.1, e.2.map Trampoline.body)) =
      [("connect_signal", some luaA_class_connect_signal_entry),
       ("disconnect_signal", some luaA_class_disconnect_signal_entry),
       ("emit_signal", some luaA_class_emit_signal_entry)] := by
  have h21 := pasted_identifier_beq_false c "_class_disconnect_signal" "_class_connect_signal"
    (by decide)
  have h31 := pasted_identifier_beq_false c "_class_emit_signal" "_class_connect_signal"
    (by decide)
  have h32 := pasted_identifier_beq_false c "_class_emit_signal" "_class_disconnect_signal"
    (by decide)
  have hres : class_methods_resolved c =
      [("connect_signal", some Trampoline.connect_signal),
       ("disconnect_signal", some Trampoline.disconnect_signal),
       ("emit_signal", some Trampoline.emit_signal)] := by
    simp only [class_methods_resolved, LUA_CLASS_METHODS, LUA_CLASS_FUNCS, List.map, List.lookup,
      beq_self_eq_true, h21, h31, h32]
  refine ⟨rfl, rfl, rfl, hres, ?_⟩
  rw [hres]
  rfl

/-! ## The parent chain -/

theorem lua_class_parent_valid {classes : List lua_class_t} {c p : ClassRef}
    (hp : lua_class_parent classes c = some p) : c < classes.length := by
  by_contra hlt
  have hnone : classes[c]? = none := List.getElem?_eq_none (Nat.le_of_not_lt hlt)
  simp [lua_class_parent, hnone] at hp

/-- Under the registration order a parent has a smaller index than its child. -/
theorem lua_class_parent_lt {classes : List lua_class_t}
    (hreg : parents_registered classes = true) {c p : ClassRef}
    (hp : lua_class_parent classes c = some p) : p < c := by
  have hc : c < classes.length := lua_class_parent_valid hp
  have hall := List.all_eq_true.mp hreg c (List.mem_range.mpr hc)
  simpa [hp] using hall

theorem inherits_le {classes : List lua_class_t} (hreg : parents_registered classes = true)
    {d e : ClassRef} (h : Inherits classes d e) : e ≤ d := by
  induction h with
  | refl => exact Nat.le_refl _
  | tail _ hstep ih => exact Nat.le_trans (Nat.le_of_lt (lua_class_parent_lt hreg hstep)) ih

theorem class_chain_none (classes : List lua_class_t) (fuel : Nat) :
    class_chain classes fuel none = [] := by
  cases fuel <;> rfl

/-- Every class of the walk is reached by parent links. -/
theorem class_chain_sound (classes : List lua_class_t) (fuel : Nat) :
    ∀ (d x : ClassRef), x ∈ class_chain classes fuel (some d) → Inherits classes d x := by
  induction fuel with
  | zero => intro d x hx; simp [class_chain] at hx
  | succ n ih =>
    intro d x hx
    simp only [class_chain, List.mem_cons] at hx
    rcases hx with rfl | hx
    · exact Relation.ReflTransGen.refl
    · cases hp : lua_class_parent classes d with
      | none => simp [hp, class_chain_none] at hx
      | some p =>
        rw [hp] at hx
        exact Relation.ReflTransGen.head hp (ih p x hx)

/-- With fuel above the index of the class the walk reaches every class that
parent links reach. -/
theorem class_chain_complete {classes : List lua_class_t}
    (hreg : parents_registered classes = true) {d x : ClassRef} (h : Inherits classes d x) :
    ∀ fuel, d < fuel → x ∈ class_chain classes fuel (some d) := by
  induction h using Relation.ReflTransGen.head_induction_on with
  | refl =>
    intro fuel hf
    cases fuel with
    | zero => exact absurd hf (Nat.not_lt_zero _)
    | succ n => simp [class_chain]
  | head hstep _ ih =>
    intro fuel hf
    cases fuel with
    | zero => exact absurd hf (Nat.not_lt_zero _)
    | succ n =>
      have hlt := lua_class_parent_lt hreg hstep
      have hstep2 : lua_class_parent classes _ = some _ := hstep
      simp only [class_chain, hstep2, List.mem_cons]
      exact Or.inr (ih n (Nat.lt_of_lt_of_le hlt (Nat.le_of_lt_succ hf)))

/-- The ancestor chain holds exactly the classes parent links reach. -/
theorem mem_lua_class_ancestors {classes : List lua_class_t}
    (hreg : parents_registered classes = true) (d x : ClassRef) :
    x ∈ lua_class_ancestors classes d ↔ Inherits classes d x := by
  constructor
  · exact class_chain_sound classes _ d x
  · intro h
    rcases Relation.ReflTransGen.cases_head h with rfl | ⟨p, hp, hpx⟩
    · simp [lua_class_ancestors, class_chain]
    · have hd : d < classes.length := lua_class_parent_valid hp
      exact class_chain_complete hreg h _ (Nat.lt_succ_of_lt hd)

theorem class_is_a_eq_mem (classes : List lua_class_t) (fuel : Nat) :
    ∀ (d : Option ClassRef) (e : ClassRef),
      class_is_a classes fuel d e = decide (e ∈ class_chain classes fuel d) := by
  induction fuel with
  | zero => intro d e; simp [class_is_a, class_chain]
  | succ n ih =>
    intro d e
    cases d with
    | none => simp [class_is_a, class_chain]
    | some d =>
      simp only [class_is_a, class_chain, ih, List.mem_cons]
      by_cases hde : d = e
      · simp [hde]
      · have hed : ¬ e = d := fun h => hde h.symm
        simp [hde, hed]

theorem class_is_a_iff {classes : List lua_class_t} (hreg : parents_registered classes = true)
    (d e : ClassRef) :
    class_is_a classes (classes.length + 1) (some d) e = true ↔ Inherits classes d e := by
  rw [class_is_a_eq_mem, decide_eq_true_iff]
  exact mem_lua_class_ancestors hreg d e

/-! ## Checked cast -/

/-- C8: for a userdata whose concrete class is `D` and every class `E`,
`luaA_checkudata` succeeds, with the address of the userdata, exactly when `E`
is `D` or is reached from `D` by parent links: it succeeds for every class of
the ancestor chain of `D` and raises the type error for every other class. -/
theorem luaA_checkudata_covariant (classes : List lua_class_t)
    (hreg : parents_registered classes = true) (L : lua_State) (ud : Int) (p : Nat)
    (D E : ClassRef) (hv : index2adr L ud = some (LuaValue.userdata p (some D))) :
    ((∃ q, luaA_checkudata classes L ud E = Except.ok q) ↔ Inherits classes D E) ∧
    (Inherits classes D E → luaA_checkudata classes L ud E = Except.ok (some p)) ∧
    (E ∈ lua_class_ancestors classes D → luaA_checkudata classes L ud E = Except.ok (some p)) ∧
    (¬ Inherits classes D E →
      luaA_checkudata classes L ud E =
        Except.error (LuaError.TypeError ud (lua_class_name classes E))) ∧
    (E ∉ lua_class_ancestors classes D →
      luaA_checkudata classes L ud E =
        Except.error (LuaError.TypeError ud (lua_class_name classes E))) := by
  have hiff := class_is_a_iff hreg D E
  have hmem := mem_lua_class_ancestors hreg D E
  have hyes : Inherits classes D E → luaA_checkudata classes L ud E = Except.ok (some p) := by
    intro h
    simp [luaA_checkudata, luaA_toudata, hv, hiff.mpr h]
  have hno : ¬ Inherits classes D E →
      luaA_checkudata classes L ud E =
        Except.error (LuaError.TypeError ud (lua_class_name classes E)) := by
    intro h
    have hf : class_is_a classes (classes.length + 1) (some D) E = false := by
      cases hc : class_is_a classes (classes.length + 1) (some D) E with
      | false => rfl
      | true => exact absurd (hiff.mp hc) h
    simp [luaA_checkudata, luaA_toudata, hv, hf]
  refine ⟨⟨?_, fun h => ⟨some p, hyes h⟩⟩, hyes, fun h => hyes (hmem.mp h), hno,
    fun h => hno (fun hi => h (hmem.mpr hi))⟩
  rintro ⟨q, hq⟩
  by_contra h
  rw [hno h] at hq
  cases hq

/-- A client (class 2, parent window, grandparent object) passes the check
against client, window and object and fails it against tag. -/
theorem luaA_checkudata_covariant_witness :
    lua_class_ancestors sample_classes 2 = [2, 1, 0] ∧
    luaA_checkudata sample_classes (state_of [LuaValue.userdata 100 (some 2)]) 1 0 =
      Except.ok (some 100) ∧
    luaA_checkudata sample_classes (state_of [LuaValue.userdata 100 (some 2)]) 1 3 =
      Except.error (LuaError.TypeError 1 "tag") ∧
    Inherits sample_classes 2 0 ∧ ¬ Inherits sample_classes 2 3 :=
  have h0 := luaA_checkudata_covariant sample_classes (by decide)
    (state_of [LuaValue.userdata 100 (some 2)]) 1 100 2 0 rfl
  have h3 := luaA_checkudata_covariant sample_classes (by decide)
    (state_of [LuaValue.userdata 100 (some 2)]) 1 100 2 3 rfl
  ⟨by decide, h0.2.2.1 (by decide), h3.2.2.2.2 (by decide),
    h0.1.mp ⟨some 100, rfl⟩, fun h => by
      have hok := h3.2.1 h
      have herr : luaA_checkudata sample_classes
          (state_of [LuaValue.userdata 100 (some 2)]) 1 3 =
          Except.error (LuaError.TypeError 1 "tag") := rfl
      rw [herr] at hok
      cases hok⟩

/-! ## Property lookup -/

/-- A tail of the walk is the walk from its first class. -/
theorem class_chain_suffix (classes : List lua_class_t) (fuel : Nat) :
    ∀ (d : Option ClassRef) (pre : List ClassRef) (c : ClassRef) (suf : List ClassRef),
      class_chain classes fuel d = pre ++ c :: suf →
      ∃ n, class_chain classes n (some c) = c :: suf := by
  induction fuel with
  | zero => intro d pre c suf h; simp [class_chain] at h
  | succ n ih =>
    intro d pre c suf h
    cases d with
    | none => simp [class_chain] at h
    | some d =>
      cases pre with
      | nil =>
        simp only [class_chain, List.nil_append, List.cons.injEq] at h
        obtain ⟨rfl, hs⟩ := h
        exact ⟨n + 1, by simp [class_chain, hs]⟩
      | cons a pre =>
        simp only [class_chain, List.cons_append, List.cons.injEq] at h
        exact ih _ pre c suf h.2

/-- A successful walk stops at the first class of the chain that defines the
key. -/
theorem luaA_class_property_walk_some (classes : List lua_class_t) (key : awesome_token_t)
    (fuel : Nat) :
    ∀ (d : Option ClassRef) (c : ClassRef) (e : lua_class_property_t),
      luaA_class_property_walk classes fuel d key = some (c, e) →
      lua_class_own_property classes c key = some e ∧
      ∃ pre suf, class_chain classes fuel d = pre ++ c :: suf ∧
        ∀ x ∈ pre, lua_class_own_property classes x key = none := by
  induction fuel with
  | zero => intro d c e h; simp [luaA_class_property_walk] at h
  | succ n ih =>
    intro d c e h
    cases d with
    | none => simp [luaA_class_property_walk] at h
    | some d =>
      simp only [luaA_class_property_walk] at h
      cases hown : lua_class_own_property classes d key with
      | some e0 =>
        simp only [hown, Option.some.injEq, Prod.mk.injEq] at h
        obtain ⟨rfl, rfl⟩ := h
        exact ⟨hown, [], class_chain classes n (lua_class_parent classes d), by
          simp [class_chain], by simp⟩
      | none =>
        simp only [hown] at h
        obtain ⟨hc, pre, suf, hch, hpre⟩ := ih _ c e h
        refine ⟨hc, d :: pre, suf, by simp [class_chain, hch], ?_⟩
        intro x hx
        rcases List.mem_cons.mp hx with rfl | hx
        · exact hown
        · exact hpre x hx

/-- A failed walk met no class that defines the key. -/
theorem luaA_class_property_walk_none (classes : List lua_class_t) (key : awesome_token_t)
    (fuel : Nat) :
    ∀ (d : Option ClassRef), luaA_class_property_walk classes fuel d key = none →
      ∀ x ∈ class_chain classes fuel d, lua_class_own_property classes x key = none := by
  induction fuel with
  | zero => intro d _ x hx; simp [class_chain] at hx
  | succ n ih =>
    intro d h x hx
    cases d with
    | none => simp [class_chain] at hx
    | some d =>
      simp only [luaA_class_property_walk] at h
      cases hown : lua_class_own_property classes d key with
      | some e0 => simp [hown] at h
      | none =>
        simp only [hown] at h
        simp only [class_chain, List.mem_cons] at hx
        rcases hx with rfl | hx
        · exact hown
        · exact ih _ h x hx

/-- C7: the property lookup from a class `C` returns the entry for `K` of the
most-derived class of the ancestor chain of `C` that defines `K`.  The class it
answers is in the chain of `C` and defines the entry returned; no class
strictly between `C` and it defines `K`; an entry on `C` itself is returned
whatever the ancestors define; when a class `x` of the chain defines `K` the
lookup answers `x` or a class derived from `x`; and the lookup fails exactly
when no class of the chain defines `K`. -/
theorem luaA_class_property_get_most_derived (classes : List lua_class_t)
    (hreg : parents_registered classes = true) (C : ClassRef) (K : awesome_token_t) :
    (∀ c e, luaA_class_property_get classes C K = some (c, e) →
      Inherits classes C c ∧ lua_class_own_property classes c K = some e ∧
      (∃ pre suf, lua_class_ancestors classes C = pre ++ c :: suf ∧
        ∀ x ∈ pre, lua_class_own_property classes x K = none) ∧
      ∀ x, Inherits classes C x → Inherits classes x c → x ≠ c →
        lua_class_own_property classes x K = none) ∧
    (∀ e, lua_class_own_property classes C K = some e →
      luaA_class_property_get classes C K = some (C, e)) ∧
    (∀ x e, Inherits classes C x → lua_class_own_property classes x K = some e →
      ∃ c e0, luaA_class_property_get classes C K = some (c, e0) ∧ Inherits classes c x) ∧
    (luaA_class_property_get classes C K = none ↔
      ∀ x, Inherits classes C x → lua_class_own_property classes x K = none) := by
  have hsome : ∀ c e, luaA_class_property_get classes C K = some (c, e) →
      Inherits classes C c ∧ lua_class_own_property classes c K = some e ∧
      (∃ pre suf, lua_class_ancestors classes C = pre ++ c :: suf ∧
        ∀ x ∈ pre, lua_class_own_property classes x K = none) ∧
      ∀ x, Inherits classes C x → Inherits classes x c → x ≠ c →
        lua_class_own_property classes x K = none := by
    intro c e h
    obtain ⟨hown, pre, suf, hch, hpre⟩ :=
      luaA_class_property_walk_some classes K _ _ c e h
    have hcmem : c ∈ lua_class_ancestors classes C := by
      unfold lua_class_ancestors
      rw [hch]
      simp
    refine ⟨(mem_lua_class_ancestors hreg C c).mp hcmem, hown, ⟨pre, suf, hch, hpre⟩, ?_⟩
    intro x hCx hxc hne
    have hxmem : x ∈ pre ++ c :: suf := by
      have := (mem_lua_class_ancestors hreg C x).mpr hCx
      unfold lua_class_ancestors at this
      rwa [hch] at this
    rcases List.mem_append.mp hxmem with hx | hx
    · exact hpre x hx
    · exfalso
      obtain ⟨n, hn⟩ := class_chain_suffix classes _ _ pre c suf hch
      have hcx : Inherits classes c x := class_chain_sound classes n c x (by rw [hn]; exact hx)
      exact hne (Nat.le_antisymm (inherits_le hreg hcx) (inherits_le hreg hxc))
  have hnone : luaA_class_property_get classes C K = none →
      ∀ x, Inherits classes C x → lua_class_own_property classes x K = none := by
    intro h x hx
    exact luaA_class_property_walk_none classes K _ _ h x
      ((mem_lua_class_ancestors hreg C x).mpr hx)
  refine ⟨hsome, ?_, ?_, hnone, ?_⟩
  · intro e he
    simp [luaA_class_property_get, luaA_class_property_walk, he]
  · intro x e hx he
    cases hget : luaA_class_property_get classes C K with
    | none => rw [hnone hget x hx] at he; cases he
    | some r =>
      obtain ⟨c, e0⟩ := r
      refine ⟨c, e0, rfl, ?_⟩
      obtain ⟨_, pre, suf, hch, hpre⟩ :=
        luaA_class_property_walk_some classes K _ _ c e0 hget
      have hxmem : x ∈ pre ++ c :: suf := by
        have := (mem_lua_class_ancestors hreg C x).mpr hx
        unfold lua_class_ancestors at this
        rwa [hch] at this
      rcases List.mem_append.mp hxmem with hx1 | hx1
      · rw [hpre x hx1] at he; cases he
      · obtain ⟨n, hn⟩ := class_chain_suffix classes _ _ pre c suf hch
        exact class_chain_sound classes n c x (by rw [hn]; exact hx1)
  · intro h
    cases hget : luaA_class_property_get classes C K with
    | none => rfl
    | some r =>
      obtain ⟨c, e⟩ := r
      obtain ⟨hCc, hown, _⟩ := hsome c e hget
      rw [h c hCc] at hown
      cases hown

/-- The key 1 is defined by client and by its grandparent object: the lookup
from client answers client's entry.  The key 2 is defined by object alone: the
lookup from client walks two parent links and answers object's entry. -/
theorem luaA_class_property_get_most_derived_witness :
    lua_class_own_property sample_classes 0 1 = some ⟨1, none, some 10, some 11⟩ ∧
    luaA_class_property_get sample_classes 2 1 = some (2, ⟨1, none, some 30, some 31⟩) ∧
    luaA_class_property_get sample_classes 2 2 = some (0, ⟨2, none, some 12, none⟩) ∧
    Inherits sample_classes 2 0 ∧
    lua_class_ancestors sample_classes 2 = [2, 1, 0] :=
  have h1 := luaA_class_property_get_most_derived sample_classes (by decide) 2 1
  have h2 := luaA_class_property_get_most_derived sample_classes (by decide) 2 2
  ⟨by decide, h1.2.1 ⟨1, none, some 30, some 31⟩ (by decide), by decide,
    (h2.1 0 ⟨2, none, some 12, none⟩ (by decide)).1, by decide⟩

end Awesome
